import Mathlib

/-!
Verification of the radiometric correction core of
`ee-atmcorr-coefficients-timeseries.py`.

The Python source is shallowly embedded over the real numbers: each pure
Python function becomes a Lean function, opaque pickled interpolation tables
become function-typed parameters, and the unguarded batch loop becomes an
explicit fold over a list of scenes (with an `Except`-valued variant making
Python exception propagation explicit).
-/

/-- Number of spectral bands, global `NO_OF_BANDS = 13` in the source. -/
def NO_OF_BANDS : ℕ := 13

/-- A band lookup table (iLUT): an opaque interpolation function mapping
`(solar_z, h2o, o3, aot, altitude_km)` to a `(gain, offset)` pair.  In the
source this is an arbitrary callable loaded with `pickle.load`. -/
def BandLookupTable : Type := ℝ → ℝ → ℝ → ℝ → ℝ → ℝ × ℝ

/-- Atmospheric parameters of one scene, the `AtmParams` named tuple of the
source: day of year, solar zenith angle (degrees), water vapor, ozone and
aerosol optical thickness.  `doy` is an integer (`tm_yday`) in the source. -/
structure AtmParams where
  doy : ℕ
  solar_z : ℝ
  h2o : ℝ
  o3 : ℝ
  aot : ℝ

/-- The elliptical orbit correction factor computed (inline, once per band)
at lines 100-102 of the source:
`0.03275104 * math.cos(atmParams.doy / 59.66638337) + 0.96804905`. -/
noncomputable def orbit_correction (doy : ℕ) : ℝ :=
  0.03275104 * Real.cos ((doy : ℝ) / 59.66638337) + 0.96804905

/-- `get_corr_coef` (source lines 82-106): for each band's lookup table,
evaluate it at the scene's atmospheric parameters and the altitude `KM`,
multiply both resulting coefficients by the elliptical orbit correction
(recomputed inside the loop body, as in the source), and collect the pairs
in band order.  The per-band tables, loaded from disk by band number in the
source, are passed as the list `tables`. -/
noncomputable def get_corr_coef (tables : List BandLookupTable)
    (atmParams : AtmParams) (KM : ℝ) : List (ℝ × ℝ) :=
  tables.map fun iluTable =>
    let ab := iluTable atmParams.solar_z atmParams.h2o atmParams.o3 atmParams.aot KM
    let elliptical_orbit_correction := orbit_correction atmParams.doy
    (ab.1 * elliptical_orbit_correction, ab.2 * elliptical_orbit_correction)

/-- Optimized variant of `get_corr_coef` that hoists the orbit correction
factor (which depends only on `doy`) out of the per-band loop; the claimed
refinement of the source's loop, written from its description. -/
noncomputable def get_corr_coef_hoisted (tables : List BandLookupTable)
    (atmParams : AtmParams) (KM : ℝ) : List (ℝ × ℝ) :=
  let k := orbit_correction atmParams.doy
  tables.map fun iluTable =>
    let ab := iluTable atmParams.solar_z atmParams.h2o atmParams.o3 atmParams.aot KM
    (ab.1 * k, ab.2 * k)

/-- Python `math.radians`: degrees to radians. -/
noncomputable def radians (deg : ℝ) : ℝ := deg * Real.pi / 180

/-- `toa_to_rad_multiplier` (source lines 109-124): multiplier converting TOA
reflectance to at-sensor radiance, from the solar exoatmospheric irradiance
`ESUN` (read off the image metadata in the source), the solar zenith angle
and the day of year. -/
noncomputable def toa_to_rad_multiplier (ESUN : ℝ) (atmParams : AtmParams) : ℝ :=
  let solar_angle_correction := Real.cos (radians atmParams.solar_z)
  let d := 1 - 0.01672 * Real.cos (0.9856 * ((atmParams.doy : ℝ) - 4))
  ESUN * solar_angle_correction / (Real.pi * d ^ 2)

/-- helper: the orbit correction factor always lies in
`[0.93529801, 1.00080009]`, since the cosine lies in `[-1, 1]`. -/
lemma orbit_correction_mem (doy : ℕ) :
    0.93529801 ≤ orbit_correction doy ∧ orbit_correction doy ≤ 1.00080009 := by
  have h1 := Real.neg_one_le_cos ((doy : ℝ) / 59.66638337)
  have h2 := Real.cos_le_one ((doy : ℝ) / 59.66638337)
  unfold orbit_correction
  constructor <;> nlinarith

/-- C3: for every `day_of_year` in `[1, 366]`, the orbit correction equals
`0.03275104 * cos(day_of_year / 59.66638337) + 0.96804905`; as a Lean
function it is pure and total on that domain (indeed on all of `ℕ`). -/
theorem orbit_correction_formula (doy : ℕ) (h1 : 1 ≤ doy) (h2 : doy ≤ 366) :
    orbit_correction doy =
      0.03275104 * Real.cos ((doy : ℝ) / 59.66638337) + 0.96804905 := rfl

theorem orbit_correction_formula_witness :
    1 ≤ 200 ∧ 200 ≤ 366 ∧
      orbit_correction 200 =
        0.03275104 * Real.cos (((200 : ℕ) : ℝ) / 59.66638337) + 0.96804905 :=
  ⟨by decide, by decide, orbit_correction_formula 200 (by decide) (by decide)⟩

/-- C6: for every `day_of_year` in `[1, 366]`, the orbit correction lies in
the closed interval `[0.935, 1.001]`. -/
theorem orbit_correction_bounds (doy : ℕ) (h1 : 1 ≤ doy) (h2 : doy ≤ 366) :
    0.935 ≤ orbit_correction doy ∧ orbit_correction doy ≤ 1.001 := by
  have h := orbit_correction_mem doy
  constructor
  · linarith [h.1]
  · linarith [h.2]

theorem orbit_correction_bounds_witness :
    1 ≤ 100 ∧ 100 ≤ 366 ∧
      (0.935 ≤ orbit_correction 100 ∧ orbit_correction 100 ≤ 1.001) :=
  ⟨by decide, by decide, orbit_correction_bounds 100 (by decide) (by decide)⟩

/-- C4: the TOA-to-radiance multiplier equals
`ESUN * cos(radians(solar_z)) / (pi * d^2)` with
`d = 1 - 0.01672 * cos(0.9856 * (doy - 4))`, where `radians` converts
degrees to radians (`deg * pi / 180`). -/
theorem toa_to_rad_multiplier_formula (ESUN : ℝ) (atmParams : AtmParams) :
    toa_to_rad_multiplier ESUN atmParams =
      ESUN * Real.cos (atmParams.solar_z * Real.pi / 180) /
        (Real.pi *
          (1 - 0.01672 * Real.cos (0.9856 * ((atmParams.doy : ℝ) - 4))) ^ 2) := rfl

/-- C1: the coefficient builder returns exactly one pair per band, in the
order of the band table list, and the pair at index `i` is
`(a * k, b * k)` where `(a, b)` is table `i` evaluated at
`(solar_z, h2o, o3, aot, altitude)` and `k` is the orbit correction of the
scene's day of year. -/
theorem get_corr_coef_per_band (tables : List BandLookupTable)
    (atmParams : AtmParams) (KM : ℝ) :
    (get_corr_coef tables atmParams KM).length = tables.length ∧
    ∀ i : ℕ, (get_corr_coef tables atmParams KM)[i]? =
      (tables[i]?).map fun t =>
        ((t atmParams.solar_z atmParams.h2o atmParams.o3 atmParams.aot KM).1 *
            orbit_correction atmParams.doy,
         (t atmParams.solar_z atmParams.h2o atmParams.o3 atmParams.aot KM).2 *
            orbit_correction atmParams.doy) := by
  constructor
  · simp [get_corr_coef]
  · intro i
    simp [get_corr_coef]

/-- The per-value surface reflectance transform embedded in
`atm_corr_band` (source lines 134, 142, 145): scale the TOA value by
1/10000, multiply by the radiance multiplier, subtract the gain `a` and
divide by the second coefficient `b`. -/
noncomputable def to_surface_reflectance (toa m a b : ℝ) : ℝ :=
  (toa / 10000 * m - a) / b

/-- Modelled from the spec: the inverse of `to_surface_reflectance` for known
multiplier, gain and offset, which the spec's round-trip property names
`recover` but which has no counterpart in the source. -/
noncomputable def recover (sr m a b : ℝ) : ℝ :=
  (sr * b + a) / m * 10000

/-- Python runtime errors the program's type-access mismatch can raise. -/
inductive PyError where
  | typeError : PyError
  | indexError : PyError
deriving DecidableEq

/-- The field names of the `AtmParams` namedtuple. -/
inductive AtmField where
  | doy : AtmField
  | solar_z : AtmField
  | h2o : AtmField
  | o3 : AtmField
  | aot : AtmField

/-- A Python subscript applied to the namedtuple: an integer, or a string
naming a field. -/
inductive PyIndex where
  | int : ℕ → PyIndex
  | str : AtmField → PyIndex

/-- The underlying tuple of the `AtmParams` namedtuple, in declaration order
`(doy, solar_z, h2o, o3, aot)` (source line 57). -/
def AtmParams.tuple (p : AtmParams) : List ℝ :=
  [(p.doy : ℝ), p.solar_z, p.h2o, p.o3, p.aot]

/-- Subscripting (`obj[index]`) a `collections.namedtuple`: a namedtuple is
a tuple, so an integer index reads the underlying tuple (raising
`IndexError` out of range), while a STRING index always raises
`TypeError` (tuple indices must be integers or slices, not str). -/
def AtmParams.getitem (p : AtmParams) : PyIndex → Except PyError ℝ
  | PyIndex.int i =>
    match p.tuple[i]? with
    | some v => Except.ok v
    | none => Except.error PyError.indexError
  | PyIndex.str _ => Except.error PyError.typeError

/-- `toa_to_rad_multiplier` (source lines 109-124) as actually executed when
its `atmParams` argument is the `AtmParams` namedtuple the program builds
(its only call site, line 139, forwards that namedtuple): lines 116 and 118
subscript the argument with the STRINGS "solar_z" and "doy", which raises
`TypeError` on the namedtuple before any arithmetic happens. -/
noncomputable def toa_to_rad_multiplierE (ESUN : ℝ) (atmParams : AtmParams) :
    Except PyError ℝ :=
  match atmParams.getitem (PyIndex.str AtmField.solar_z) with
  | Except.error e => Except.error e
  | Except.ok solar_z =>
    let solar_angle_correction := Real.cos (radians solar_z)
    match atmParams.getitem (PyIndex.str AtmField.doy) with
    | Except.error e => Except.error e
    | Except.ok doy =>
      let d := 1 - 0.01672 * Real.cos (0.9856 * (doy - 4))
      Except.ok (ESUN * solar_angle_correction / (Real.pi * d ^ 2))

/-- The per-band loop of `atm_corr_band` (source lines 138-146): each
iteration first calls `toa_to_rad_multiplier`, forwarding the namedtuple
(line 139); an exception raised there propagates out of the loop.  The
image and its per-band solar irradiance metadata are maps from band index
to the per-pixel real value. -/
noncomputable def atm_corr_band_loop (old_image ESUN : ℕ → ℝ)
    (atm_vars : AtmParams) (cor_coeff_list : List (ℝ × ℝ)) :
    List ℕ → Except PyError (List ℝ)
  | [] => Except.ok []
  | ii :: rest =>
    match toa_to_rad_multiplierE (ESUN ii) atm_vars with
    | Except.error e => Except.error e
    | Except.ok img_to_rad_multiplier =>
      let img_rad := old_image ii * img_to_rad_multiplier
      let ab := cor_coeff_list.getD ii (0, 0)
      let surface_refl := (img_rad - ab.1) / ab.2
      match atm_corr_band_loop old_image ESUN atm_vars cor_coeff_list rest with
      | Except.error e => Except.error e
      | Except.ok tail => Except.ok (surface_refl :: tail)

/-- `atm_corr_band` (source lines 127-149) as actually executed: divide the
image by 10000, build the coefficient list (line 136; `get_corr_coef` reads
the namedtuple by ATTRIBUTE, which succeeds), then run the per-band loop,
whose first iteration string-subscripts the same namedtuple inside
`toa_to_rad_multiplier` and therefore raises. -/
noncomputable def atm_corr_bandE (image ESUN : ℕ → ℝ) (atm_vars : AtmParams)
    (tables : List BandLookupTable) (KM : ℝ) : Except PyError (List ℝ) :=
  let old_image := fun i => image i / 10000
  let cor_coeff_list := get_corr_coef tables atm_vars KM
  atm_corr_band_loop old_image ESUN atm_vars cor_coeff_list
    (List.range NO_OF_BANDS)

/-- helper: the string subscripts of `toa_to_rad_multiplier` raise
`TypeError` on the namedtuple, whatever the values. -/
lemma toa_to_rad_multiplierE_raises (ESUN : ℝ) (atm_vars : AtmParams) :
    toa_to_rad_multiplierE ESUN atm_vars = Except.error PyError.typeError := rfl

/-- helper: the per-band loop raises on any nonempty index list. -/
lemma atm_corr_band_loop_raises (old_image ESUN : ℕ → ℝ)
    (atm_vars : AtmParams) (cor_coeff_list : List (ℝ × ℝ)) (ii : ℕ)
    (rest : List ℕ) :
    atm_corr_band_loop old_image ESUN atm_vars cor_coeff_list (ii :: rest) =
      Except.error PyError.typeError := by
  simp [atm_corr_band_loop, toa_to_rad_multiplierE_raises]

/-- helper: `atm_corr_band` raises `TypeError` on every input: its 13-band
loop runs at least one iteration. -/
lemma atm_corr_bandE_raises (image ESUN : ℕ → ℝ) (atm_vars : AtmParams)
    (tables : List BandLookupTable) (KM : ℝ) :
    atm_corr_bandE image ESUN atm_vars tables KM =
      Except.error PyError.typeError := by
  have hr : List.range NO_OF_BANDS =
      0 :: [1, 2, 3, 4, 5, 6, 7, 8, 9, 10, 11, 12] := by decide
  simp [atm_corr_bandE, hr, atm_corr_band_loop_raises]

/-- C2 (code bug): the surface reflectance transform of the claim is never
executed: `atm_corr_band` raises `TypeError` at its first band, for every
image, irradiance metadata, parameter record, table list and altitude,
because line 139 forwards the `AtmParams` namedtuple (required by the
`get_corr_coef` call at line 136, which reads it by attribute) to
`toa_to_rad_multiplier`, which string-subscripts it at line 116. -/
theorem atm_corr_bandE_typeError (image ESUN : ℕ → ℝ) (atm_vars : AtmParams)
    (tables : List BandLookupTable) (KM : ℝ) :
    atm_corr_bandE image ESUN atm_vars tables KM =
      Except.error PyError.typeError :=
  atm_corr_bandE_raises image ESUN atm_vars tables KM

/-- C7: for nonzero multiplier and offset, `recover` inverts
`to_surface_reflectance` exactly (in the real-number model): the transform
round-trips. -/
theorem surface_reflectance_roundtrip (toa m a b : ℝ) (hm : m ≠ 0)
    (hb : b ≠ 0) :
    recover (to_surface_reflectance toa m a b) m a b = toa := by
  unfold recover to_surface_reflectance
  field_simp
  ring

theorem surface_reflectance_roundtrip_witness :
    (2 : ℝ) ≠ 0 ∧ (5 : ℝ) ≠ 0 ∧
      recover (to_surface_reflectance 7 2 3 5) 2 3 5 = 7 :=
  ⟨by norm_num, by norm_num,
    surface_reflectance_roundtrip 7 2 3 5 (by norm_num) (by norm_num)⟩

/-- C9: hoisting the orbit correction factor out of the per-band loop does
not change the coefficient list, for every parameter record, altitude and
sequence of band tables (hence any band count). -/
theorem get_corr_coef_hoist_eq (tables : List BandLookupTable)
    (atmParams : AtmParams) (KM : ℝ) :
    get_corr_coef_hoisted tables atmParams KM =
      get_corr_coef tables atmParams KM := rfl

/-- One scene of the batch: its per-band TOA pixel values, its per-band solar
irradiance metadata, and the atmospheric parameters that the source fetches
for it through `atm_corr_image` (an external-service call, so the fetched
record is carried by the scene here). -/
structure Scene where
  image : ℕ → ℝ
  ESUN : ℕ → ℝ
  atm : AtmParams

/-- A concrete scene whose solar zenith angle 95 lies outside
`boundedTable`'s domain (see below). -/
noncomputable def sceneBad : Scene := ⟨fun _ => 0, fun _ => 0, ⟨1, 95, 1, 1, 1⟩⟩

/-- A concrete scene with ordinary in-domain parameters. -/
noncomputable def sceneGood : Scene := ⟨fun _ => 0, fun _ => 0, ⟨1, 30, 1, 1, 1⟩⟩

/-- An element of the heterogeneous `ee.List`: the source seeds
`corrected_images` with the integer `0` (`ee.List([0])`, a garbage sentinel)
and later appends images to it. -/
inductive EEObject where
  | num : ℕ → EEObject
  | image : List ℝ → EEObject

/-- An export task queued by the loop (`ee.batch.Export.image.toDrive`),
identified by the loop index used in its file name, holding the corrected
image. -/
structure ExportTask where
  img_idx : ℕ
  image : List ℝ

/-- The three accumulators of the batch loop (source lines 153-155):
`corrected_images` (seeded with the sentinel), `export_list` and
`coeff_list`. -/
structure BatchState where
  corrected_images : List EEObject
  export_list : List ExportTask
  coeff_list : List (List (ℝ × ℝ))

/-- The batch loop (source lines 156-177), one iteration per scene in
order: compute the scene's coefficients (always appended to `coeff_list`);
when the `EXPORT` flag is set, also correct the image, queue an export task
and append the image to `corrected_images`.  The loop body is unguarded, so
the `TypeError` raised inside `atm_corr_band` propagates and aborts the
loop (and the program, before `slice(1)` at line 180 and the report write
at line 186). -/
noncomputable def batch_loopEx (EXPORT : Bool) (tables : List BandLookupTable)
    (KM : ℝ) : ℕ → List Scene → BatchState → Except PyError BatchState
  | _, [], st => Except.ok st
  | img_idx, scene :: rest, st =>
    let atm_vars := scene.atm
    let corr_coeffs := get_corr_coef tables atm_vars KM
    let st1 : BatchState := { st with coeff_list := st.coeff_list ++ [corr_coeffs] }
    if EXPORT then
      match atm_corr_bandE scene.image scene.ESUN atm_vars tables KM with
      | Except.error e => Except.error e
      | Except.ok img =>
        batch_loopEx EXPORT tables KM (img_idx + 1) rest
          { st1 with
              export_list := st1.export_list ++ [⟨img_idx, img⟩],
              corrected_images := st1.corrected_images ++ [EEObject.image img] }
    else batch_loopEx EXPORT tables KM (img_idx + 1) rest st1

/-- The whole batch driver (source lines 152-186): run the loop from index 0
with `corrected_images` seeded with the garbage element; only when the loop
completes is the first element removed with `slice(1)`. -/
noncomputable def run_batchEx (EXPORT : Bool) (tables : List BandLookupTable)
    (KM : ℝ) (scenes : List Scene) : Except PyError BatchState :=
  match batch_loopEx EXPORT tables KM 0 scenes ⟨[EEObject.num 0], [], []⟩ with
  | Except.error e => Except.error e
  | Except.ok final =>
    Except.ok { final with corrected_images := final.corrected_images.drop 1 }

/-- helper: with the flag off the loop always completes, appending one
coefficient list per scene and touching nothing else. -/
lemma batch_loopEx_false (tables : List BandLookupTable) (KM : ℝ)
    (scenes : List Scene) :
    ∀ (img_idx : ℕ) (st : BatchState),
      batch_loopEx false tables KM img_idx scenes st =
        Except.ok { st with coeff_list :=
          st.coeff_list ++ scenes.map fun s => get_corr_coef tables s.atm KM } := by
  induction scenes with
  | nil => intro img_idx st; simp [batch_loopEx]
  | cons s rest ih =>
    intro img_idx st
    simp [batch_loopEx, ih]

/-- helper: with the flag on, the first iteration raises `TypeError` inside
`atm_corr_band`, before anything is appended to `corrected_images`. -/
lemma batch_loopEx_true_crash (tables : List BandLookupTable) (KM : ℝ)
    (s : Scene) (rest : List Scene) (img_idx : ℕ) (st : BatchState) :
    batch_loopEx true tables KM img_idx (s :: rest) st =
      Except.error PyError.typeError := by
  simp [batch_loopEx, atm_corr_bandE_raises]

/-- helper: whenever the loop completes, `corrected_images` is unchanged:
with the flag off it is never touched, and with the flag on the loop only
completes on an empty scene list. -/
lemma batch_loopEx_ok_corrected (EXPORT : Bool)
    (tables : List BandLookupTable) (KM : ℝ) (scenes : List Scene)
    (img_idx : ℕ) (st pre : BatchState)
    (h : batch_loopEx EXPORT tables KM img_idx scenes st = Except.ok pre) :
    pre.corrected_images = st.corrected_images := by
  cases EXPORT with
  | false =>
    rw [batch_loopEx_false] at h
    simp only [Except.ok.injEq] at h
    rw [← h]
  | true =>
    cases scenes with
    | nil =>
      simp only [batch_loopEx, Except.ok.injEq] at h
      rw [← h]
    | cons s rest =>
      rw [batch_loopEx_true_crash] at h
      cases h

/-- C8 (code bug): flipping the `EXPORT` flag does not merely toggle raster
production: on every nonempty scene batch the flag-on run raises
`TypeError` inside `atm_corr_band` during the first scene and produces no
coefficient output at all, while the flag-off run completes with one
coefficient list per scene. -/
theorem run_batchEx_flag_divergence (tables : List BandLookupTable) (KM : ℝ)
    (s : Scene) (rest : List Scene) :
    run_batchEx true tables KM (s :: rest) = Except.error PyError.typeError ∧
    ∃ st, run_batchEx false tables KM (s :: rest) = Except.ok st ∧
      st.coeff_list = (s :: rest).map fun sc => get_corr_coef tables sc.atm KM := by
  constructor
  · simp [run_batchEx, batch_loopEx_true_crash]
  · refine ⟨⟨[], [], (s :: rest).map fun sc => get_corr_coef tables sc.atm KM⟩,
      ?_, rfl⟩
    simp [run_batchEx, batch_loopEx_false]

/-- C10 counterexample: a concrete one-scene batch with the export flag on
crashes with `TypeError` inside `atm_corr_band` before appending any image:
the loop never completes, `slice(1)` is never reached and no final
corrected-images sequence exists, while the flag-off run of the same batch
completes with an empty one. -/
theorem run_batchEx_true_crash_counterexample :
    run_batchEx true [] 0 [sceneGood] = Except.error PyError.typeError ∧
    ∃ st, run_batchEx false [] 0 [sceneGood] = Except.ok st ∧
      st.corrected_images = [] := by
  constructor
  · simp [run_batchEx, batch_loopEx_true_crash]
  · refine ⟨⟨[], [], [[]]⟩, ?_, rfl⟩
    simp [run_batchEx, batch_loopEx_false, get_corr_coef]

/-- C10 amended: whenever the batch loop completes, the corrected-images
accumulator still holds exactly the seeded sentinel (a flag-on iteration
never completes, so nothing is ever appended), `slice(1)` removes exactly
that sentinel, and the final corrected-images sequence is exactly the
(empty) list of images appended during the loop — in particular empty
whenever the flag is false. -/
theorem run_batchEx_sentinel_removal (EXPORT : Bool)
    (tables : List BandLookupTable) (KM : ℝ) (scenes : List Scene)
    (pre : BatchState)
    (h : batch_loopEx EXPORT tables KM 0 scenes ⟨[EEObject.num 0], [], []⟩ =
      Except.ok pre) :
    pre.corrected_images = [EEObject.num 0] ∧
    run_batchEx EXPORT tables KM scenes =
      Except.ok { pre with corrected_images := pre.corrected_images.drop 1 } ∧
    pre.corrected_images.drop 1 = [] := by
  have hc : pre.corrected_images = [EEObject.num 0] :=
    batch_loopEx_ok_corrected EXPORT tables KM scenes 0 _ pre h
  refine ⟨hc, ?_, by simp [hc]⟩
  simp [run_batchEx, h]

theorem run_batchEx_sentinel_removal_witness :
    batch_loopEx false [] 0 0 [sceneGood] ⟨[EEObject.num 0], [], []⟩ =
      Except.ok ⟨[EEObject.num 0], [], [[]]⟩ ∧
    ((⟨[EEObject.num 0], [], [[]]⟩ : BatchState).corrected_images =
        [EEObject.num 0] ∧
      run_batchEx false [] 0 [sceneGood] =
        Except.ok { (⟨[EEObject.num 0], [], [[]]⟩ : BatchState) with
          corrected_images :=
            (⟨[EEObject.num 0], [], [[]]⟩ : BatchState).corrected_images.drop 1 } ∧
      (⟨[EEObject.num 0], [], [[]]⟩ : BatchState).corrected_images.drop 1 = []) := by
  have hpre : batch_loopEx false [] 0 0 [sceneGood] ⟨[EEObject.num 0], [], []⟩ =
      Except.ok ⟨[EEObject.num 0], [], [[]]⟩ := by
    simp [batch_loopEx, get_corr_coef]
  exact ⟨hpre, run_batchEx_sentinel_removal false [] 0 [sceneGood]
    ⟨[EEObject.num 0], [], [[]]⟩ hpre⟩

/-- The error a domain-checking band lookup table raises on out-of-domain
input (`OutOfDomainError` in the spec). -/
inductive AtmCorrError where
  | outOfDomain : AtmCorrError
deriving DecidableEq

/-- A band lookup table that may raise: the pickled callables of the source
are arbitrary Python functions, so evaluating one may raise an exception,
modelled by an `Except` result. -/
def BandLookupTableE : Type := ℝ → ℝ → ℝ → ℝ → ℝ → Except AtmCorrError (ℝ × ℝ)

/-- `get_corr_coef` over tables that may raise: the source's loop body has no
handler, so a raised error aborts the whole per-scene computation, which the
explicit error propagation of this recursion makes visible. -/
noncomputable def get_corr_coefE (tables : List BandLookupTableE)
    (atmParams : AtmParams) (KM : ℝ) : Except AtmCorrError (List (ℝ × ℝ)) :=
  match tables with
  | [] => Except.ok []
  | iluTable :: rest =>
    match iluTable atmParams.solar_z atmParams.h2o atmParams.o3 atmParams.aot KM with
    | Except.error e => Except.error e
    | Except.ok ab =>
      let elliptical_orbit_correction := orbit_correction atmParams.doy
      match get_corr_coefE rest atmParams KM with
      | Except.error e => Except.error e
      | Except.ok tail =>
        Except.ok ((ab.1 * elliptical_orbit_correction,
          ab.2 * elliptical_orbit_correction) :: tail)

/-- The coefficient path of the batch loop (source lines 156-161, with
`EXPORT = False` as in the source) over tables that may raise: the loop is
unguarded — no `try`/`except` — so an error raised while processing one
scene propagates and aborts the whole batch, and `coeff_list.txt` is only
written after the loop, so nothing is output at all. -/
noncomputable def run_batchE (tables : List BandLookupTableE) (KM : ℝ) :
    List Scene → Except AtmCorrError (List (List (ℝ × ℝ)))
  | [] => Except.ok []
  | scene :: rest =>
    match get_corr_coefE tables scene.atm KM with
    | Except.error e => Except.error e
    | Except.ok corr_coeffs =>
      match run_batchE tables KM rest with
      | Except.error e => Except.error e
      | Except.ok coeff_acc => Except.ok (corr_coeffs :: coeff_acc)

/-- A domain-checking table: in domain (solar zenith at most 90 degrees) it
returns `(1, 1)`, out of domain it raises `OutOfDomainError`. -/
noncomputable def boundedTable : BandLookupTableE := fun solar_z _ _ _ _ =>
  if solar_z ≤ 90 then Except.ok (1, 1) else Except.error AtmCorrError.outOfDomain

/-- helper: `boundedTable` raises on `sceneBad`'s parameters. -/
lemma coefE_sceneBad :
    get_corr_coefE [boundedTable] sceneBad.atm 0 =
      Except.error AtmCorrError.outOfDomain := by
  have hb : boundedTable 95 1 1 1 0 = Except.error AtmCorrError.outOfDomain := by
    unfold boundedTable
    rw [if_neg]
    norm_num
  simp [get_corr_coefE, sceneBad, hb]

/-- helper: `sceneGood` alone evaluates to ordinary coefficients. -/
lemma coefE_sceneGood :
    ∃ cs, get_corr_coefE [boundedTable] sceneGood.atm 0 = Except.ok cs := by
  have hg : boundedTable 30 1 1 1 0 = Except.ok (1, 1) := by
    unfold boundedTable
    rw [if_pos]
    norm_num
  exact ⟨[(1 * orbit_correction 1, 1 * orbit_correction 1)],
    by simp [get_corr_coefE, sceneGood, hg]⟩

/-- C5 counterexample: in a batch of two scenes where the first is out of
the table's domain and the second is in domain (and alone would produce
coefficients), the unguarded batch aborts with the error — the in-domain
scene does NOT still produce valid output, contrary to the claim. -/
theorem run_batchE_abort_counterexample :
    (∃ cs, get_corr_coefE [boundedTable] sceneGood.atm 0 = Except.ok cs) ∧
    run_batchE [boundedTable] 0 [sceneBad, sceneGood] =
      Except.error AtmCorrError.outOfDomain := by
  refine ⟨coefE_sceneGood, ?_⟩
  simp [run_batchE, coefE_sceneBad]

/-- C5 amended: the source has no domain check and no per-scene error
isolation, so if evaluating any scene's coefficients raises (e.g. an
`OutOfDomainError` from a bounds-checking table), the whole batch fails and
no scene's coefficients appear in the output. -/
theorem run_batchE_error_of_scene_error (tables : List BandLookupTableE)
    (KM : ℝ) (scenes : List Scene) (s : Scene) (e : AtmCorrError)
    (hs : s ∈ scenes) (he : get_corr_coefE tables s.atm KM = Except.error e) :
    ∃ er, run_batchE tables KM scenes = Except.error er := by
  induction scenes with
  | nil => cases hs
  | cons head rest ih =>
    rcases List.mem_cons.mp hs with rfl | hmem
    · exact ⟨e, by simp [run_batchE, he]⟩
    · cases hh : get_corr_coefE tables head.atm KM with
      | error e2 => exact ⟨e2, by simp [run_batchE, hh]⟩
      | ok v =>
        obtain ⟨er, hr⟩ := ih hmem
        exact ⟨er, by simp [run_batchE, hh, hr]⟩

theorem run_batchE_error_of_scene_error_witness :
    sceneBad ∈ [sceneBad, sceneGood] ∧
    get_corr_coefE [boundedTable] sceneBad.atm 0 =
      Except.error AtmCorrError.outOfDomain ∧
    ∃ er, run_batchE [boundedTable] 0 [sceneBad, sceneGood] = Except.error er :=
  ⟨List.mem_cons_self _ _, coefE_sceneBad,
    run_batchE_error_of_scene_error [boundedTable] 0 [sceneBad, sceneGood]
      sceneBad AtmCorrError.outOfDomain (List.mem_cons_self _ _) coefE_sceneBad⟩
